import Mathlib

/-!
Verification development for the CloudLogCollector repository.

The repository contains four sequential cloud-log collectors (AWS CloudTrail,
Azure activity logs, Entra ID sign-ins, GCP audit logs) plus an orchestrator.
This file gives a shallow embedding of the collectors' control flow and data
handling.  Python values are modelled by `PyVal`, Python exceptions by `PyErr`
(all constructors model exception classes deriving from `Exception`), and each
external SDK/HTTP call is abstracted as an environment function supplied to the
embedded collector.  Numeric JSON literals are modelled as integers and the
pretty-printing layout of the JSON file sink is abstracted; no claim below
depends on either.
-/

namespace CloudLog

/-- Datetime models a Python `datetime.datetime` value.  Python's constructor
validates 1 ≤ year ≤ 9999, 1 ≤ month ≤ 12, 1 ≤ day ≤ 31, hour ≤ 23,
minute ≤ 59, second ≤ 59; microseconds are abstracted away. -/
structure Datetime where
  year : Nat
  month : Nat
  day : Nat
  hour : Nat
  minute : Nat
  second : Nat
deriving DecidableEq, Repr

/-- PyVal models the Python values flowing through the collectors: JSON-style
data (None, bool, int, str, list, dict) plus datetime objects. -/
inductive PyVal where
  | none
  | bool (b : Bool)
  | int (n : Int)
  | str (s : String)
  | list (xs : List PyVal)
  | dict (fields : List (String × PyVal))
  | datetime (dt : Datetime)
deriving Repr

/-- PyDict models a Python dict with string keys as an insertion-ordered
association list (first occurrence of a key is its binding). -/
abbrev PyDict := List (String × PyVal)

/-- pyTruthy models Python truthiness (`bool(v)`) for the modelled values. -/
def pyTruthy : PyVal → Bool
  | .none => false
  | .bool b => b
  | .int n => decide (n ≠ 0)
  | .str s => decide (s ≠ "")
  | .list xs => !xs.isEmpty
  | .dict fs => !fs.isEmpty
  | .datetime _ => true

/-- PyErr models the Python exceptions the collectors can raise.  Every
constructor models an exception class deriving from `Exception` (botocore's
`ClientError`, `json.JSONDecodeError`, `TypeError`, `AttributeError`,
`KeyError`, and a bare `Exception(msg)`). -/
inductive PyErr where
  | clientError (code : String)
  | jsonDecodeError
  | typeError
  | attributeError
  | keyError (key : String)
  | exception (msg : String)
deriving DecidableEq, Repr

/-- PyErr.isClientError tells whether an exception is a botocore ClientError,
the only class caught by the AWS per-region handler. -/
def PyErr.isClientError : PyErr → Bool
  | .clientError _ => true
  | _ => false

/-- dictSet models Python dict assignment `d[k] = v`: it replaces the value at
an existing key in place (preserving insertion order) or appends a new key. -/
def dictSet : PyDict → String → PyVal → PyDict
  | [], k, v => [(k, v)]
  | (k2, v2) :: rest, k, v =>
    if k2 = k then (k, v) :: rest else (k2, v2) :: dictSet rest k v

/-- skipWs drops leading JSON whitespace characters. -/
def skipWs : List Char → List Char
  | [] => []
  | c :: cs =>
    if c = ' ' ∨ c = '\n' ∨ c = '\t' ∨ c = '\r' then skipWs cs else c :: cs

/-- unescapeChar maps a JSON escape character to the character it denotes. -/
def unescapeChar (c : Char) : Option Char :=
  if c = '"' then some '"'
  else if c = '\\' then some '\\'
  else if c = '/' then some '/'
  else if c = 'n' then some '\n'
  else if c = 't' then some '\t'
  else if c = 'r' then some '\r'
  else Option.none

/-- parseStrChars consumes the characters of a JSON string literal after the
opening quote, returning the decoded characters and the remaining input. -/
def parseStrChars : List Char → Option (List Char × List Char)
  | [] => Option.none
  | c :: cs =>
    if c = '"' then some ([], cs)
    else if c = '\\' then
      match cs with
      | [] => Option.none
      | e :: cs2 =>
        match unescapeChar e with
        | Option.none => Option.none
        | some ch =>
          match parseStrChars cs2 with
          | Option.none => Option.none
          | some (out, rest) => some (ch :: out, rest)
    else
      match parseStrChars cs with
      | Option.none => Option.none
      | some (out, rest) => some (c :: out, rest)

/-- digitsToNat folds a list of decimal digit characters into a natural. -/
def digitsToNat : List Char → Nat → Nat
  | [], acc => acc
  | c :: cs, acc => digitsToNat cs (acc * 10 + (c.toNat - 48))

/-- parseNumber parses a JSON integer literal (floats are not modelled). -/
def parseNumber (cs : List Char) : Option (PyVal × List Char) :=
  match cs with
  | '-' :: rest =>
    let ds := rest.takeWhile Char.isDigit
    let rest2 := rest.dropWhile Char.isDigit
    if ds.isEmpty then Option.none
    else some (.int (-(Int.ofNat (digitsToNat ds 0))), rest2)
  | _ =>
    let ds := cs.takeWhile Char.isDigit
    let rest2 := cs.dropWhile Char.isDigit
    if ds.isEmpty then Option.none
    else some (.int (Int.ofNat (digitsToNat ds 0)), rest2)

/-- dropLit consumes an expected literal character sequence. -/
def dropLit : List Char → List Char → Option (List Char)
  | [], cs => some cs
  | l :: ls, c :: cs => if c = l then dropLit ls cs else Option.none
  | _ :: _, [] => Option.none

mutual

/-- parseVal parses one JSON value; the fuel bound dominates the input length
so that recursion is structural and kernel-reducible. -/
def parseVal : Nat → List Char → Option (PyVal × List Char)
  | 0, _ => Option.none
  | fuel + 1, cs =>
    match skipWs cs with
    | [] => Option.none
    | c :: rest =>
      if c = 'n' then
        match dropLit ['u', 'l', 'l'] rest with
        | some r => some (.none, r)
        | Option.none => Option.none
      else if c = 't' then
        match dropLit ['r', 'u', 'e'] rest with
        | some r => some (.bool true, r)
        | Option.none => Option.none
      else if c = 'f' then
        match dropLit ['a', 'l', 's', 'e'] rest with
        | some r => some (.bool false, r)
        | Option.none => Option.none
      else if c = '"' then
        match parseStrChars rest with
        | some (out, r) => some (.str (String.mk out), r)
        | Option.none => Option.none
      else if c = '[' then
        match skipWs rest with
        | ']' :: r => some (.list [], r)
        | cs2 =>
          match parseElems fuel cs2 with
          | some (vs, r) => some (.list vs, r)
          | Option.none => Option.none
      else if c = '\x7b' then
        match skipWs rest with
        | '\x7d' :: r => some (.dict [], r)
        | cs2 =>
          match parseMembers fuel cs2 with
          | some (ms, r) => some (.dict ms, r)
          | Option.none => Option.none
      else parseNumber (c :: rest)

/-- parseElems parses the comma-separated elements of a nonempty JSON array,
including the closing bracket. -/
def parseElems : Nat → List Char → Option (List PyVal × List Char)
  | 0, _ => Option.none
  | fuel + 1, cs =>
    match parseVal fuel cs with
    | Option.none => Option.none
    | some (v, rest) =>
      match skipWs rest with
      | ',' :: rest2 =>
        match parseElems fuel rest2 with
        | Option.none => Option.none
        | some (vs, r) => some (v :: vs, r)
      | ']' :: rest2 => some ([v], rest2)
      | _ => Option.none

/-- parseMembers parses the comma-separated members of a nonempty JSON object,
including the closing brace. -/
def parseMembers : Nat → List Char → Option (List (String × PyVal) × List Char)
  | 0, _ => Option.none
  | fuel + 1, cs =>
    match skipWs cs with
    | '"' :: rest =>
      match parseStrChars rest with
      | Option.none => Option.none
      | some (key, rest2) =>
        match skipWs rest2 with
        | ':' :: rest3 =>
          match parseVal fuel rest3 with
          | Option.none => Option.none
          | some (v, rest4) =>
            match skipWs rest4 with
            | ',' :: rest5 =>
              match parseMembers fuel rest5 with
              | Option.none => Option.none
              | some (ms, r) => some ((String.mk key, v) :: ms, r)
            | '\x7d' :: rest5 => some ([(String.mk key, v)], rest5)
            | _ => Option.none
        | _ => Option.none
    | _ => Option.none

end

/-- json_loads_string models Python `json.loads` applied to a string: it
succeeds exactly when the whole input is one JSON document. -/
def json_loads_string (s : String) : Option PyVal :=
  match parseVal (s.length + 1) s.toList with
  | some (v, rest) => if (skipWs rest).isEmpty then some v else Option.none
  | Option.none => Option.none

/-- pyJsonLoads models Python `json.loads` applied to an arbitrary value:
a non-string argument raises TypeError, an undecodable string raises
json.JSONDecodeError, and a JSON document decodes to its value. -/
def pyJsonLoads : PyVal → Except PyErr PyVal
  | .str s =>
    match json_loads_string s with
    | some v => .ok v
    | Option.none => .error .jsonDecodeError
  | _ => .error .typeError

/-- digitOf gives the decimal digit character for `n % 10`. -/
def digitOf (n : Nat) : Char := Nat.digitChar (n % 10)

/-- isoChars lists the nineteen characters `YYYY-MM-DDTHH:MM:SS` of a
datetime's ISO-8601 rendering. -/
def isoChars (dt : Datetime) : List Char :=
  [digitOf (dt.year / 1000), digitOf (dt.year / 100), digitOf (dt.year / 10),
   digitOf dt.year, '-', digitOf (dt.month / 10), digitOf dt.month, '-',
   digitOf (dt.day / 10), digitOf dt.day, 'T', digitOf (dt.hour / 10),
   digitOf dt.hour, ':', digitOf (dt.minute / 10), digitOf dt.minute, ':',
   digitOf (dt.second / 10), digitOf dt.second]

/-- Datetime.isoformat models Python `datetime.isoformat()` (microseconds
abstracted away), producing `YYYY-MM-DDTHH:MM:SS`. -/
def Datetime.isoformat (dt : Datetime) : String := String.mk (isoChars dt)

/-- isValidISO8601 recognizes the basic ISO-8601 combined date-time layout
`YYYY-MM-DDTHH:MM:SS`: four digits, dash, two digits, dash, two digits, the
letter T, then three colon-separated two-digit fields. -/
def isValidISO8601 (s : String) : Bool :=
  match s.toList with
  | [y1, y2, y3, y4, a1, m1, m2, a2, d1, d2, a3, h1, h2, a4, n1, n2, a5, s1, s2] =>
    y1.isDigit && y2.isDigit && y3.isDigit && y4.isDigit && (a1 == '-') &&
    m1.isDigit && m2.isDigit && (a2 == '-') && d1.isDigit && d2.isDigit &&
    (a3 == 'T') && h1.isDigit && h2.isDigit && (a4 == ':') && n1.isDigit &&
    n2.isDigit && (a5 == ':') && s1.isDigit && s2.isDigit
  | _ => false

/-- pyIsoformat models the attribute call `v.isoformat()`: defined on datetime
values, AttributeError on anything else. -/
def pyIsoformat : PyVal → Except PyErr PyVal
  | .datetime dt => .ok (.str dt.isoformat)
  | _ => .error .attributeError

/-- normalizeEvent models the per-event normalization of
src/aws_cloudtrail_events.py lines 98-103: when the key `CloudTrailEvent` is
present its value is replaced by `json.loads` of that value, and when the key
`EventTime` is present its value is replaced by `.isoformat()` of that value;
either step may raise. -/
def normalizeEvent (event : PyDict) : Except PyErr PyDict :=
  match
    (match List.lookup "CloudTrailEvent" event with
     | some v =>
       match pyJsonLoads v with
       | .ok d => Except.ok (dictSet event "CloudTrailEvent" d)
       | .error e => Except.error e
     | Option.none => Except.ok event)
  with
  | .error e => .error e
  | .ok ev1 =>
    match List.lookup "EventTime" ev1 with
    | some w =>
      match pyIsoformat w with
      | .ok sv => .ok (dictSet ev1 "EventTime" sv)
      | .error e => .error e
    | Option.none => .ok ev1

/-- Page models one CloudTrail `lookup_events` response: its `Events` list and
the optional `NextToken` continuation token. -/
structure Page where
  events : List PyDict
  nextToken : Option String

/-- AwsEnv abstracts the AWS SDK calls made by get_cloudtrail_logs:
`assume_role account` (STS role assumption plus session construction),
`describe_regions account` (EC2 region listing under the assumed session), and
`lookup_events account region token` (one CloudTrail page request; `token` is
`some t` exactly when the request carries `NextToken=t`). -/
structure AwsEnv where
  assume_role : String → Except PyErr Unit
  describe_regions : String → Except PyErr (List String)
  lookup_events : String → String → Option String → Except PyErr Page

/-- lookupRegionEvents models the `while True` pagination loop of
src/aws_cloudtrail_events.py lines 80-119 for one region: each iteration
issues one lookup request (recorded in the returned request trace), normalizes
the page's events, appends them to `all_events`, and continues with the
returned token unless that token is absent or empty (Python falsiness of
`next_token`).  A raised botocore ClientError ends the region's loop with the
events accumulated so far (`break`); any other exception propagates.  The
structural `fuel` bound only models nontermination: a `none` result means the
loop was still running after `fuel` iterations. -/
def lookupRegionEvents (lookup : Option String → Except PyErr Page) :
    Nat → Option String → List PyDict → List (Option String) →
    Option (List (Option String) × Except PyErr (List PyDict))
  | 0, _, _, _ => Option.none
  | fuel + 1, token, all_events, reqs =>
    let reqs2 := reqs ++ [token]
    match lookup token with
    | .error e =>
      if e.isClientError then some (reqs2, .ok all_events)
      else some (reqs2, .error e)
    | .ok response =>
      match response.events.mapM normalizeEvent with
      | .error e =>
        if e.isClientError then some (reqs2, .ok all_events)
        else some (reqs2, .error e)
      | .ok events =>
        let all_events2 := all_events ++ events
        match response.nextToken with
        | Option.none => some (reqs2, .ok all_events2)
        | some t =>
          if t = "" then some (reqs2, .ok all_events2)
          else lookupRegionEvents lookup fuel (some t) all_events2 reqs2

/-- collectRegions models the `for region in regions` loop of
get_cloudtrail_logs: regions are processed in order, each region's pagination
loop threads the shared `all_events` accumulator, and a non-ClientError
exception aborts the whole collection. -/
def collectRegions (lookup : String → Option String → Except PyErr Page)
    (fuel : Nat) :
    List String → List PyDict → Option (Except PyErr (List PyDict))
  | [], all_events => some (.ok all_events)
  | region :: rest, all_events =>
    match lookupRegionEvents (lookup region) fuel Option.none all_events [] with
    | Option.none => Option.none
    | some (_, .error e) => some (.error e)
    | some (_, .ok all_events2) => collectRegions lookup fuel rest all_events2

/-- collectAccounts models the `for account_id in account_list` loop of
get_cloudtrail_logs: role assumption and region listing happen outside the
per-region try/except, so their exceptions always propagate. -/
def collectAccounts (env : AwsEnv) (fuel : Nat) :
    List String → List PyDict → Option (Except PyErr (List PyDict))
  | [], all_events => some (.ok all_events)
  | account :: rest, all_events =>
    match env.assume_role account with
    | .error e => some (.error e)
    | .ok _ =>
      match env.describe_regions account with
      | .error e => some (.error e)
      | .ok regions =>
        match collectRegions (env.lookup_events account) fuel regions all_events with
        | Option.none => Option.none
        | some (.error e) => some (.error e)
        | some (.ok all_events2) => collectAccounts env fuel rest all_events2

/-- get_cloudtrail_logs models src/aws_cloudtrail_events.py lines 50-121:
collect CloudTrail events over every account in `account_list` and every
region visible to that account's session, starting from an empty accumulator. -/
def get_cloudtrail_logs (env : AwsEnv) (fuel : Nat) (account_list : List String) :
    Option (Except PyErr (List PyDict)) :=
  collectAccounts env fuel account_list []

/-- PageChain lookup req ps states that issuing request `req` against `lookup`
yields page chain `ps`: every page except the last carries a nonempty
continuation token under which `lookup` serves the next page, and the last
page carries no token. -/
inductive PageChain (lookup : Option String → Except PyErr Page) :
    Option String → List Page → Prop
  | last (req : Option String) (p : Page) :
      lookup req = .ok p → p.nextToken = Option.none →
      PageChain lookup req [p]
  | cons (req : Option String) (p : Page) (t : String) (ps : List Page) :
      lookup req = .ok p → p.nextToken = some t → t ≠ "" →
      PageChain lookup (some t) ps →
      PageChain lookup req (p :: ps)

/-- specRequests follows the spec's words for the expected request trace of a
page chain: the first request is `req` and each subsequent request carries the
token returned by the previous page. -/
def specRequests (req : Option String) : List Page → List (Option String)
  | [] => []
  | p :: ps =>
    req ::
      (match p.nextToken with
       | some t => specRequests (some t) ps
       | Option.none => [])

/-- ErrPageChain lookup req ps states that issuing request `req` against
`lookup` yields the pages `ps` (each normalizing to itself and each carrying a
nonempty token to the next request), after which the next request raises a
botocore ClientError. -/
inductive ErrPageChain (lookup : Option String → Except PyErr Page) :
    Option String → List Page → Prop
  | err (req : Option String) (c : String) :
      lookup req = .error (.clientError c) → ErrPageChain lookup req []
  | cons (req : Option String) (p : Page) (t : String) (ps : List Page) :
      lookup req = .ok p → p.events.mapM normalizeEvent = .ok p.events →
      p.nextToken = some t → t ≠ "" →
      ErrPageChain lookup (some t) ps →
      ErrPageChain lookup req (p :: ps)

/-- HttpResponse models a `requests` response object: its status code, the
result of calling `.json()` on it (which may itself raise), and its text. -/
structure HttpResponse where
  status_code : Nat
  json : Except PyErr PyVal
  text : String

/-- list_subscriptions models src/azure_activity_logs.py lines 31-49: on a 200
response it returns `response.json()["value"]` (string indexing of a non-dict
raises TypeError, a missing key raises KeyError); on any other status it logs
and returns the empty list. -/
def list_subscriptions (resp : HttpResponse) : Except PyErr PyVal :=
  if resp.status_code = 200 then
    match resp.json with
    | .error e => .error e
    | .ok (.dict fs) =>
      match List.lookup "value" fs with
      | some v => .ok v
      | Option.none => .error (.keyError "value")
    | .ok _ => .error .typeError
  else .ok (.list [])

/-- collect_audit_logs models src/azure_activity_logs.py lines 51-75: on a 200
response it returns `response.json().get("value", [])` (calling `.get` on a
non-dict raises AttributeError); on any other status it logs and returns the
empty list. -/
def collect_audit_logs (resp : HttpResponse) : Except PyErr PyVal :=
  if resp.status_code = 200 then
    match resp.json with
    | .error e => .error e
    | .ok (.dict fs) => .ok ((List.lookup "value" fs).getD (.list []))
    | .ok _ => .error .attributeError
  else .ok (.list [])

/-- get_sign_in_logs models src/entraid_signin_logs.py lines 33-60: on a 200
response it returns `response.json()`; on any other status it logs and
returns None. -/
def get_sign_in_logs (resp : HttpResponse) : Except PyErr PyVal :=
  if resp.status_code = 200 then resp.json
  else .ok .none

/-- entraid_main models src/entraid_signin_logs.py lines 74-86: it returns the
sign-in logs when they are truthy and the empty list otherwise. -/
def entraid_main (resp : HttpResponse) : Except PyErr PyVal :=
  match get_sign_in_logs resp with
  | .error e => .error e
  | .ok v => .ok (if pyTruthy v then v else .list [])

/-- GLogEntry models a Cloud Logging entry: its timestamp (used by the
server-side ordering) and the value of `entry.to_api_repr()`. -/
structure GLogEntry where
  timestamp : Int
  api_repr : PyVal

/-- tsGE orders entries newest first: `tsGE a b` holds when `a`'s timestamp is
at least `b`'s. -/
def tsGE (a b : GLogEntry) : Prop := b.timestamp ≤ a.timestamp

instance : DecidableRel tsGE := fun a b =>
  inferInstanceAs (Decidable (b.timestamp ≤ a.timestamp))

instance : IsTotal GLogEntry tsGE :=
  ⟨fun a b => le_total b.timestamp a.timestamp⟩

instance : IsTrans GLogEntry tsGE :=
  ⟨fun _ _ _ hab hbc => le_trans hbc hab⟩

/-- sortTsDesc sorts entries by descending timestamp. -/
def sortTsDesc (l : List GLogEntry) : List GLogEntry := List.insertionSort tsGE l

/-- SortedTsDesc states that the entries appear newest first. -/
def SortedTsDesc (l : List GLogEntry) : Prop := List.Sorted tsGE l

/-- DESCENDING models google.cloud.logging.DESCENDING. -/
def DESCENDING : String := "timestamp desc"

/-- list_entries is modelled from the API contract of Cloud Logging
`Client.list_entries` (an external SDK call): `backend` abstracts the server's
evaluation of a filter string to the matching entries, which the call returns
ordered per `order_by` and truncated to `max_results`. -/
def list_entries (backend : String → Except PyErr (List GLogEntry))
    (filter_ : String) (order_by : String) (max_results : Nat) :
    Except PyErr (List GLogEntry) :=
  match backend filter_ with
  | .error e => .error e
  | .ok entries =>
    .ok ((if order_by = DESCENDING then sortTsDesc entries else entries).take
      max_results)

/-- base_filter models the mandatory timestamp range clause built by
src/gcp_audit_logs.py lines 88-91. -/
def base_filter (start_time end_time : Datetime) : String :=
  "timestamp>=\"" ++ start_time.isoformat ++ "Z\" " ++
  "timestamp<=\"" ++ end_time.isoformat ++ "Z\""

/-- build_filter models lines 93-96: a truthy caller-supplied filter is
prefixed to the mandatory clause, otherwise the mandatory clause stands alone
(`None` and the empty string are both falsy). -/
def build_filter (filter_str : Option String) (start_time end_time : Datetime) :
    String :=
  match filter_str with
  | some fs =>
    if fs = "" then base_filter start_time end_time
    else fs ++ " " ++ base_filter start_time end_time
  | Option.none => base_filter start_time end_time

set_option linter.unusedVariables false in
/-- get_audit_logs models src/gcp_audit_logs.py lines 71-109: it queries
entries with the combined filter, descending timestamp order and the
`max_results` cap, then collects `entry.to_api_repr()` for each entry (the
source accepts `organization_id` but never uses it in the query). -/
def get_audit_logs (backend : String → Except PyErr (List GLogEntry))
    (organization_id : String) (start_time end_time : Datetime)
    (max_results : Nat) (filter_str : Option String) :
    Except PyErr (List PyVal) :=
  match
    list_entries backend (build_filter filter_str start_time end_time)
      DESCENDING max_results
  with
  | .error e => .error e
  | .ok entries => .ok (entries.map GLogEntry.api_repr)

/-- GcpEnv abstracts the GCP SDK calls: `get_service_enabled name` (Service
Usage get_service, telling whether the named service is enabled),
`enable_service name` (EnableService plus waiting on the returned operation),
`search_organizations` (Resource Manager organization search), and `backend`
(the Cloud Logging query behind list_entries). -/
structure GcpEnv where
  get_service_enabled : String → Except PyErr Bool
  enable_service : String → Except PyErr Unit
  search_organizations : Except PyErr (List (String × String))
  backend : String → Except PyErr (List GLogEntry)

/-- enable_api models src/gcp_audit_logs.py lines 30-55: check the service
state and enable the service only when it is not already enabled. -/
def enable_api (env : GcpEnv) (project_id api_name : String) :
    Except PyErr Unit :=
  let svc := "projects/" ++ project_id ++ "/services/" ++ api_name
  match env.get_service_enabled svc with
  | .error e => .error e
  | .ok true => .ok ()
  | .ok false => env.enable_service svc

/-- get_organization_id models src/gcp_audit_logs.py lines 57-69: return the
name of the first organization found, and raise
`Exception("No organizations found.")` when the search yields none.
Organizations are modelled as (display_name, name) pairs. -/
def get_organization_id (env : GcpEnv) : Except PyErr String :=
  match env.search_organizations with
  | .error e => .error e
  | .ok [] => .error (.exception "No organizations found.")
  | .ok (org :: _) => .ok org.2

/-- FS models the file system visible to the collectors as an association list
from filename to file content. -/
abbrev FS := List (String × String)

/-- fsWrite models `open(filename, "w")` plus a full write: it overwrites an
existing file or creates a new one. -/
def fsWrite : FS → String → String → FS
  | [], name, content => [(name, content)]
  | (n, c) :: rest, name, content =>
    if n = name then (name, content) :: rest
    else (n, c) :: fsWrite rest name content

/-- dumpVal serializes a PyVal to JSON text (indentation abstracted; the fuel
dominates the value's depth so recursion is structural). -/
def dumpVal : Nat → PyVal → String
  | 0, _ => ""
  | fuel + 1, v =>
    match v with
    | .none => "null"
    | .bool true => "true"
    | .bool false => "false"
    | .int n => toString n
    | .str s => "\"" ++ s ++ "\""
    | .list xs =>
      "[" ++ String.intercalate ", " (xs.map (dumpVal fuel)) ++ "]"
    | .dict fs =>
      "\x7b" ++
        String.intercalate ", "
          (fs.map (fun p => "\"" ++ p.1 ++ "\": " ++ dumpVal fuel p.2)) ++
      "\x7d"
    | .datetime dt => "\"" ++ dt.isoformat ++ "\""

mutual

/-- pyDepth bounds the nesting depth of a value, providing the dump fuel. -/
def pyDepth : PyVal → Nat
  | .none => 1
  | .bool _ => 1
  | .int _ => 1
  | .str _ => 1
  | .datetime _ => 1
  | .list xs => pyDepthList xs + 1
  | .dict fs => pyDepthFields fs + 1

/-- pyDepthList bounds the nesting depth over a list of values. -/
def pyDepthList : List PyVal → Nat
  | [] => 0
  | v :: vs => max (pyDepth v) (pyDepthList vs)

/-- pyDepthFields bounds the nesting depth over the fields of a dict. -/
def pyDepthFields : List (String × PyVal) → Nat
  | [] => 0
  | f :: fs => max (pyDepth f.2) (pyDepthFields fs)

end

/-- json_dump models `json.dump(logs, file)` for a list of log entries. -/
def json_dump (logs : List PyVal) : String :=
  dumpVal (pyDepth (.list logs)) (.list logs)

/-- save_audit_logs models src/gcp_audit_logs.py lines 111-121: serialize the
logs and write them to `filename`. -/
def save_audit_logs (fs : FS) (logs : List PyVal) (filename : String) : FS :=
  fsWrite fs filename (json_dump logs)

/-- gcp_flow models the body of the `try` block of src/gcp_audit_logs.py
lines 123-134 up to the query: enable the Resource Manager API, resolve the
organization id, and retrieve the audit logs. -/
def gcp_flow (env : GcpEnv) (project_id : String)
    (start_time end_time : Datetime) (max_results : Nat)
    (filter_str : Option String) : Except PyErr (List PyVal) :=
  match enable_api env project_id "cloudresourcemanager.googleapis.com" with
  | .error e => .error e
  | .ok _ =>
    match get_organization_id env with
    | .error e => .error e
    | .ok organization_id =>
      get_audit_logs env.backend organization_id start_time end_time
        max_results filter_str

/-- gcp_main models src/gcp_audit_logs.py lines 123-136: run the flow and save
its result inside a `try`, and catch, log and swallow any raised Exception
(every PyErr constructor models an Exception subclass), leaving the file
system untouched on the error path. -/
def gcp_main (env : GcpEnv) (fs : FS) (project_id : String)
    (start_time end_time : Datetime) (max_results : Nat)
    (filter_str : Option String) (filename : String) : Except PyErr FS :=
  match gcp_flow env project_id start_time end_time max_results filter_str with
  | .ok logs => .ok (save_audit_logs fs logs filename)
  | .error _ => .ok fs

/-! Concrete instances used by the witnesses below. -/

/-- pageEvent is a plain CloudTrail event without the two normalized keys. -/
def pageEvent (name : String) : PyDict := [("EventName", PyVal.str name)]

/-- c1Pages is a three-page chain: the first two pages return continuation
tokens, the last returns none. -/
def c1Pages : List Page :=
  [⟨[pageEvent "e1"], some "tokenA"⟩, ⟨[pageEvent "e2"], some "tokenB"⟩,
   ⟨[pageEvent "e3"], Option.none⟩]

/-- c1Lookup serves the three pages of c1Pages keyed by their tokens. -/
def c1Lookup : Option String → Except PyErr Page
  | Option.none => .ok ⟨[pageEvent "e1"], some "tokenA"⟩
  | some "tokenA" => .ok ⟨[pageEvent "e2"], some "tokenB"⟩
  | some "tokenB" => .ok ⟨[pageEvent "e3"], Option.none⟩
  | some _ => .error (.clientError "InvalidLookupAttributesException")

/-- c2Event carries a JSON-encoded detail string and a datetime event time. -/
def c2Event : PyDict :=
  [("EventId", PyVal.str "abc"),
   ("CloudTrailEvent", PyVal.str "\x7b\"k\": 1\x7d"),
   ("EventTime", PyVal.datetime ⟨2024, 5, 17, 12, 30, 45⟩)]

/-- c3Env serves one single-page region per account; region "eu-north-1" of
account "000000000001" raises a ClientError on its first page request. -/
def c3Env : AwsEnv :=
  { assume_role := fun _ => .ok ()
    describe_regions := fun _ => .ok ["us-east-1", "eu-north-1"]
    lookup_events := fun account region _ =>
      if account = "000000000001" ∧ region = "eu-north-1" then
        .error (.clientError "UnrecognizedClientException")
      else .ok ⟨[pageEvent (account ++ "/" ++ region)], Option.none⟩ }

/-- c4Event is the single event of the page fetched before the error. -/
def c4Event : PyDict := [("EventName", PyVal.str "partial")]

/-- c4Env serves one region whose first page succeeds with c4Event and a
continuation token, and whose second page request raises a ClientError. -/
def c4Env : AwsEnv :=
  { assume_role := fun _ => .ok ()
    describe_regions := fun _ => .ok ["eu-west-1"]
    lookup_events := fun _ _ tok =>
      match tok with
      | Option.none => .ok ⟨[c4Event], some "T1"⟩
      | some _ => .error (.clientError "ThrottlingException") }

/-- c4Lookup2 drives the amended-claim witness: region "r1" yields one page
then a ClientError, region "r2" yields a single page. -/
def c4Lookup2 : String → Option String → Except PyErr Page
  | "r1", Option.none => .ok ⟨[c4Event], some "T1"⟩
  | "r1", some _ => .error (.clientError "ThrottlingException")
  | _, _ => .ok ⟨[pageEvent "r2event"], Option.none⟩

/-- badJsonEvent holds a CloudTrailEvent string that is not valid JSON. -/
def badJsonEvent : PyDict := [("CloudTrailEvent", PyVal.str "\x7bbad json")]

/-- c8Env serves badJsonEvent in the first region of the first account and a
healthy page everywhere else. -/
def c8Env : AwsEnv :=
  { assume_role := fun _ => .ok ()
    describe_regions := fun _ => .ok ["us-east-1", "us-west-2"]
    lookup_events := fun _ region _ =>
      if region = "us-east-1" then .ok ⟨[badJsonEvent], Option.none⟩
      else .ok ⟨[pageEvent "healthy"], Option.none⟩ }

/-- resp403 is a mocked 403 response. -/
def resp403 : HttpResponse :=
  ⟨403, .ok (.dict [("error", .str "Forbidden")]), "Forbidden"⟩

/-- resp500 is a mocked 500 response. -/
def resp500 : HttpResponse :=
  ⟨500, .ok (.dict [("error", .str "Server Error")]), "Server Error"⟩

/-- respEmptyBody is a successful response whose JSON body is a falsy empty
object. -/
def respEmptyBody : HttpResponse := ⟨200, .ok (.dict []), "\x7b\x7d"⟩

/-- respWithData is a successful response with a truthy JSON body. -/
def respWithData : HttpResponse :=
  ⟨200, .ok (.dict [("value", .list [PyVal.dict []])]), "data"⟩

/-- dt0 is an arbitrary fixed datetime. -/
def dt0 : Datetime := ⟨2024, 1, 1, 0, 0, 0⟩

/-- gcpEnvNoOrgs is a GCP environment whose organization search finds no
organizations while everything else succeeds. -/
def gcpEnvNoOrgs : GcpEnv :=
  { get_service_enabled := fun _ => .ok true
    enable_service := fun _ => .ok ()
    search_organizations := .ok []
    backend := fun _ => .ok [] }

/-- gcpBackend1 is a one-entry Cloud Logging backend. -/
def gcpBackend1 : String → Except PyErr (List GLogEntry) :=
  fun _ => .ok [⟨100, .dict [("logName", .str "x")]⟩]

/-! Helper lemmas about the AWS loops. -/

/-- lookupRegionEvents_single: a region whose first request yields a tokenless
page contributes exactly that page's normalized events. -/
theorem lookupRegionEvents_single (lookup : Option String → Except PyErr Page)
    (evs : List PyDict) (f : Nat) (acc : List PyDict)
    (reqs : List (Option String))
    (h : lookup Option.none = .ok ⟨evs, Option.none⟩)
    (hn : evs.mapM normalizeEvent = .ok evs) :
    lookupRegionEvents lookup (f + 1) Option.none acc reqs =
      some (reqs ++ [Option.none], .ok (acc ++ evs)) := by
  simp only [lookupRegionEvents, h, hn]

/-- lookupRegionEvents_clientError: a region whose first request raises a
ClientError contributes nothing and ends without error. -/
theorem lookupRegionEvents_clientError
    (lookup : Option String → Except PyErr Page) (c : String) (f : Nat)
    (acc : List PyDict) (reqs : List (Option String))
    (h : lookup Option.none = .error (.clientError c)) :
    lookupRegionEvents lookup (f + 1) Option.none acc reqs =
      some (reqs ++ [Option.none], .ok acc) := by
  simp [lookupRegionEvents, h, PyErr.isClientError]

/-- lookupRegionEvents_chain: over a well-formed page chain the loop issues
exactly the spec's request trace and accumulates the pages' events in request
order. -/
theorem lookupRegionEvents_chain (lookup : Option String → Except PyErr Page)
    (req : Option String) (ps : List Page)
    (hc : PageChain lookup req ps) :
    (∀ p ∈ ps, p.events.mapM normalizeEvent = .ok p.events) →
    ∀ fuel, ps.length ≤ fuel → ∀ (acc : List PyDict)
      (reqs : List (Option String)),
      lookupRegionEvents lookup fuel req acc reqs =
        some (reqs ++ specRequests req ps,
          .ok (acc ++ (ps.map Page.events).flatten)) := by
  induction hc with
  | last req p hlook htok =>
    intro hn fuel hfuel acc reqs
    match fuel, hfuel with
    | f + 1, _ =>
      have hp := hn p (by simp)
      simp only [lookupRegionEvents, hlook, hp, htok, specRequests]
      simp
  | cons req p t ps hlook htok hne hchain ih =>
    intro hn fuel hfuel acc reqs
    match fuel, hfuel with
    | f + 1, hfuel =>
      have hp := hn p (by simp)
      have hf2 : ps.length ≤ f := by
        simp only [List.length_cons] at hfuel
        omega
      have ihr := ih (fun q hq => hn q (by simp [hq])) f hf2
        (acc ++ p.events) (reqs ++ [req])
      simp only [lookupRegionEvents, hlook, hp, htok]
      rw [if_neg hne]
      rw [ihr]
      simp [specRequests, htok, List.append_assoc]

/-- specRequests_length: over a well-formed chain the spec's request trace has
one request per page. -/
theorem specRequests_length (lookup : Option String → Except PyErr Page)
    (req : Option String) (ps : List Page)
    (hc : PageChain lookup req ps) :
    (specRequests req ps).length = ps.length := by
  induction hc with
  | last req p _ htok => simp [specRequests, htok]
  | cons req p t ps _ htok _ _ ih => simp [specRequests, htok, ih]

/-- lookup_dictSet_self: setting a key makes it look up to the new value. -/
theorem lookup_dictSet_self (d : PyDict) (k : String) (v : PyVal) :
    List.lookup k (dictSet d k v) = some v := by
  induction d with
  | nil => simp [dictSet, List.lookup]
  | cons p rest ih =>
    obtain ⟨k2, v2⟩ := p
    by_cases h : k2 = k
    · simp [dictSet, h, List.lookup]
    · have hb : (k == k2) = false := beq_eq_false_iff_ne.mpr (Ne.symm h)
      simp [dictSet, h, List.lookup, hb, ih]

/-- lookup_dictSet_ne: setting one key leaves lookups of other keys alone. -/
theorem lookup_dictSet_ne (d : PyDict) (k k2 : String) (v : PyVal)
    (h : k2 ≠ k) :
    List.lookup k2 (dictSet d k v) = List.lookup k2 d := by
  have hb : (k2 == k) = false := beq_eq_false_iff_ne.mpr h
  induction d with
  | nil => simp [dictSet, List.lookup, hb]
  | cons p rest ih =>
    obtain ⟨k3, v3⟩ := p
    by_cases h3 : k3 = k
    · subst h3
      simp [dictSet, List.lookup, hb]
    · simp only [dictSet, if_neg h3]
      by_cases h4 : k3 = k2
      · subst h4
        simp [List.lookup]
      · have hb4 : (k2 == k3) = false := beq_eq_false_iff_ne.mpr (Ne.symm h4)
        simp [List.lookup, hb4, ih]

/-- digitOf_isDigit: digitOf always yields a decimal digit character. -/
theorem digitOf_isDigit (n : Nat) : (digitOf n).isDigit = true := by
  have h : n % 10 < 10 := Nat.mod_lt _ (by norm_num)
  unfold digitOf
  set m := n % 10 with hm
  interval_cases m <;> rfl

/-- isoformat_validISO: every datetime's isoformat string matches the
ISO-8601 combined date-time layout. -/
theorem isoformat_validISO (dt : Datetime) :
    isValidISO8601 dt.isoformat = true := by
  have hl : (Datetime.isoformat dt).toList = isoChars dt := rfl
  simp only [isValidISO8601, hl, isoChars]
  simp [digitOf_isDigit]

/-! Claim theorems. -/

/-- C5: for any non-200 response, the Azure subscription listing and the
per-subscription log query each return an empty list without raising, and the
Entra ID sign-in query returns None, which entraid_main coerces to an empty
list. -/
theorem azure_entra_non_success_empty (r1 r2 r3 : HttpResponse)
    (h1 : r1.status_code ≠ 200) (h2 : r2.status_code ≠ 200)
    (h3 : r3.status_code ≠ 200) :
    list_subscriptions r1 = .ok (.list []) ∧
    collect_audit_logs r2 = .ok (.list []) ∧
    get_sign_in_logs r3 = .ok .none ∧
    entraid_main r3 = .ok (.list []) := by
  refine ⟨?_, ?_, ?_, ?_⟩ <;>
    simp [list_subscriptions, collect_audit_logs, get_sign_in_logs,
      entraid_main, h1, h2, h3, pyTruthy]

/-- C5 witness: concrete 403 and 500 responses. -/
theorem azure_entra_non_success_empty_witness :
    list_subscriptions resp403 = .ok (.list []) ∧
    collect_audit_logs resp500 = .ok (.list []) ∧
    get_sign_in_logs resp403 = .ok .none ∧
    entraid_main resp403 = .ok (.list []) :=
  azure_entra_non_success_empty resp403 resp500 resp403
    (by decide) (by decide) (by decide)

/-- C9: entraid_main returns the empty list whenever get_sign_in_logs yields a
falsy value — None from a non-200 response, but also any successful response
whose JSON body is falsy — and returns the raw response object unchanged when
it is truthy. -/
theorem entra_main_truthiness (resp : HttpResponse) :
    (resp.status_code ≠ 200 → entraid_main resp = .ok (.list [])) ∧
    (∀ v, resp.status_code = 200 → resp.json = .ok v →
      (pyTruthy v = false → entraid_main resp = .ok (.list [])) ∧
      (pyTruthy v = true → entraid_main resp = .ok v)) := by
  constructor
  · intro h
    simp [entraid_main, get_sign_in_logs, h, pyTruthy]
  · intro v h hj
    constructor <;> intro ht <;>
      simp [entraid_main, get_sign_in_logs, h, hj, ht]

/-- C9 witness: a 200 response with an empty-object body is coerced to the
empty list, and a 200 response with a truthy body is returned unchanged. -/
theorem entra_main_truthiness_witness :
    entraid_main respEmptyBody = .ok (.list []) ∧
    entraid_main respWithData = .ok (.dict [("value", .list [PyVal.dict []])]) := by
  constructor
  · exact ((entra_main_truthiness respEmptyBody).2 (.dict []) rfl rfl).1 rfl
  · exact ((entra_main_truthiness respWithData).2
      (.dict [("value", .list [PyVal.dict []])]) rfl rfl).2 rfl

/-- C6: the GCP entry point catches, logs and swallows every exception raised
in its flow (API enable, organization lookup including the no-organizations
case, query): for every environment it returns without error. -/
theorem gcp_main_swallows_all (env : GcpEnv) (fs : FS) (project_id : String)
    (start_time end_time : Datetime) (max_results : Nat)
    (filter_str : Option String) (filename : String) :
    ∃ fs2, gcp_main env fs project_id start_time end_time max_results
      filter_str filename = .ok fs2 := by
  unfold gcp_main
  cases gcp_flow env project_id start_time end_time max_results filter_str with
  | ok logs => exact ⟨save_audit_logs fs logs filename, rfl⟩
  | error e => exact ⟨fs, rfl⟩

/-- C10: if any exception is raised in the GCP flow before save_audit_logs is
reached, gcp_main leaves the file system — including any pre-existing file at
the output path — unchanged. -/
theorem gcp_failure_writes_nothing (env : GcpEnv) (fs : FS)
    (project_id : String) (start_time end_time : Datetime) (max_results : Nat)
    (filter_str : Option String) (filename : String) (e : PyErr)
    (h : gcp_flow env project_id start_time end_time max_results filter_str =
      .error e) :
    gcp_main env fs project_id start_time end_time max_results filter_str
      filename = .ok fs := by
  unfold gcp_main
  rw [h]

/-- C10 witness: with no organizations found, the pre-existing output file is
left untouched. -/
theorem gcp_failure_writes_nothing_witness :
    gcp_main gcpEnvNoOrgs [("gcp_audit_logs.json", "old")] "proj" dt0 dt0 5000
      Option.none "gcp_audit_logs.json" =
      .ok [("gcp_audit_logs.json", "old")] :=
  gcp_failure_writes_nothing gcpEnvNoOrgs [("gcp_audit_logs.json", "old")]
    "proj" dt0 dt0 5000 Option.none "gcp_audit_logs.json"
    (.exception "No organizations found.") rfl

/-- C7: the GCP collector queries with a filter string that appends the
mandatory timestamp range clause to the truthy caller-supplied filter (or uses
the clause alone), requests descending timestamp order, and returns at most
max_results entries, newest first. -/
theorem gcp_query_shape (backend : String → Except PyErr (List GLogEntry))
    (organization_id : String) (start_time end_time : Datetime)
    (max_results : Nat) (filter_str : Option String)
    (entries : List GLogEntry)
    (hb : backend (build_filter filter_str start_time end_time) = .ok entries) :
    ∃ es, get_audit_logs backend organization_id start_time end_time
        max_results filter_str = .ok (es.map GLogEntry.api_repr) ∧
      es.length ≤ max_results ∧ SortedTsDesc es ∧
      (filter_str = Option.none →
        build_filter filter_str start_time end_time =
          base_filter start_time end_time) ∧
      (∀ fs, filter_str = some fs → fs ≠ "" →
        build_filter filter_str start_time end_time =
          fs ++ " " ++ base_filter start_time end_time) := by
  refine ⟨(sortTsDesc entries).take max_results, ?_, ?_, ?_, ?_, ?_⟩
  · unfold get_audit_logs list_entries
    rw [hb]
    simp [DESCENDING]
  · simp [List.length_take_le]
  · exact List.Pairwise.sublist (List.take_sublist max_results _)
      (List.sorted_insertionSort tsGE entries)
  · intro h
    subst h
    rfl
  · intro fs h hne
    subst h
    simp [build_filter, hne]

/-- C7 witness: a one-entry backend with an explicit caller filter. -/
theorem gcp_query_shape_witness :
    ∃ es, get_audit_logs gcpBackend1 "organizations/123" dt0 dt0 5000
        (some "severity=ERROR") = .ok (es.map GLogEntry.api_repr) ∧
      es.length ≤ 5000 ∧ SortedTsDesc es ∧
      (some "severity=ERROR" = Option.none →
        build_filter (some "severity=ERROR") dt0 dt0 = base_filter dt0 dt0) ∧
      (∀ fs, some "severity=ERROR" = some fs → fs ≠ "" →
        build_filter (some "severity=ERROR") dt0 dt0 =
          fs ++ " " ++ base_filter dt0 dt0) :=
  gcp_query_shape gcpBackend1 "organizations/123" dt0 dt0 5000
    (some "severity=ERROR") [⟨100, .dict [("logName", .str "x")]⟩] rfl

/-- C1: over a page chain in which every page except the last returns a
continuation token, the per-region pagination loop terminates, issues exactly
one lookup request per page — the first without a token, each subsequent one
with the token returned by the previous page, which is what specRequests
expresses — and returns the concatenation of the pages' events in request
order. -/
theorem aws_pagination_termination
    (lookup : Option String → Except PyErr Page) (ps : List Page) (fuel : Nat)
    (hc : PageChain lookup Option.none ps)
    (hn : ∀ p ∈ ps, p.events.mapM normalizeEvent = .ok p.events)
    (hfuel : ps.length ≤ fuel) :
    lookupRegionEvents lookup fuel Option.none [] [] =
      some (specRequests Option.none ps,
        .ok ((ps.map Page.events).flatten)) ∧
    (specRequests Option.none ps).length = ps.length := by
  constructor
  · have h := lookupRegionEvents_chain lookup Option.none ps hc hn fuel hfuel
      [] []
    simpa using h
  · exact specRequests_length lookup Option.none ps hc

/-- C1 witness: three concrete pages chained by two tokens yield three
requests and the three events in order. -/
theorem aws_pagination_termination_witness :
    lookupRegionEvents c1Lookup 3 Option.none [] [] =
      some ([Option.none, some "tokenA", some "tokenB"],
        .ok [pageEvent "e1", pageEvent "e2", pageEvent "e3"]) := by
  have hc : PageChain c1Lookup Option.none c1Pages := by
    refine PageChain.cons Option.none _ "tokenA" _ rfl rfl (by decide) ?_
    refine PageChain.cons (some "tokenA") _ "tokenB" _ rfl rfl (by decide) ?_
    exact PageChain.last (some "tokenB") _ rfl rfl
  have hn : ∀ p ∈ c1Pages, p.events.mapM normalizeEvent = .ok p.events := by
    intro p hp
    fin_cases hp <;> rfl
  have h := (aws_pagination_termination c1Lookup c1Pages 3 hc hn
    (by norm_num [c1Pages])).1
  exact h.trans rfl

/-- collectRegions_mixed: regions marked bad raise a ClientError on their
first request and contribute nothing; all other regions contribute their
single page of events; the loop never aborts. -/
theorem collectRegions_mixed (lookup2 : String → Option String → Except PyErr Page)
    (evs : String → List PyDict) (bad : String → Bool) :
    ∀ regs : List String,
      (∀ r ∈ regs, bad r = true →
        ∃ c, lookup2 r Option.none = .error (.clientError c)) →
      (∀ r ∈ regs, bad r = false →
        lookup2 r Option.none = .ok ⟨evs r, Option.none⟩ ∧
        (evs r).mapM normalizeEvent = .ok (evs r)) →
      ∀ (f : Nat) (acc : List PyDict),
        collectRegions lookup2 (f + 1) regs acc =
          some (.ok (acc ++
            (regs.map (fun r => if bad r then [] else evs r)).flatten)) := by
  intro regs
  induction regs with
  | nil =>
    intro _ _ f acc
    simp [collectRegions]
  | cons r rs ih =>
    intro h1 h2 f acc
    by_cases hb : bad r = true
    · obtain ⟨c, hcl⟩ := h1 r (by simp) hb
      have hre := lookupRegionEvents_clientError (lookup2 r) c f acc [] hcl
      simp only [collectRegions, hre]
      rw [ih (fun q hq => h1 q (by simp [hq])) (fun q hq => h2 q (by simp [hq]))
        f acc]
      simp [hb]
    · have hb2 : bad r = false := by simpa using hb
      have hx := h2 r (by simp) hb2
      have hre := lookupRegionEvents_single (lookup2 r) (evs r) f acc [] hx.1
        hx.2
      simp only [collectRegions, hre]
      rw [ih (fun q hq => h1 q (by simp [hq])) (fun q hq => h2 q (by simp [hq]))
        f (acc ++ evs r)]
      simp [hb2, List.append_assoc]

/-- collectAccounts_mixed: each account succeeds at role assumption and region
listing; region rk of account ak raises a ClientError on its first request
and contributes nothing, all other account/region pairs contribute their
single page. -/
theorem collectAccounts_mixed (env : AwsEnv) (regs : String → List String)
    (evs : String → String → List PyDict) (ak rk : String) (c : String)
    (f : Nat) :
    ∀ accounts : List String,
      (∀ a ∈ accounts, env.assume_role a = .ok ()) →
      (∀ a ∈ accounts, env.describe_regions a = .ok (regs a)) →
      (∀ a ∈ accounts, ∀ r ∈ regs a, ¬(a = ak ∧ r = rk) →
        env.lookup_events a r Option.none = .ok ⟨evs a r, Option.none⟩ ∧
        (evs a r).mapM normalizeEvent = .ok (evs a r)) →
      env.lookup_events ak rk Option.none = .error (.clientError c) →
      ∀ acc : List PyDict,
        collectAccounts env (f + 1) accounts acc =
          some (.ok (acc ++ (accounts.map (fun a =>
            ((regs a).map (fun r =>
              if a = ak ∧ r = rk then [] else evs a r)).flatten)).flatten)) := by
  intro accounts
  induction accounts with
  | nil =>
    intro _ _ _ _ acc
    simp [collectAccounts]
  | cons a as ih =>
    intro h1 h2 h3 herr acc
    have hcr := collectRegions_mixed (env.lookup_events a) (evs a)
      (fun r => decide (a = ak ∧ r = rk)) (regs a)
      (by
        intro r hr hbad
        have hand : a = ak ∧ r = rk := by simpa using hbad
        exact ⟨c, by rw [hand.1, hand.2]; exact herr⟩)
      (by
        intro r hr hbad
        exact h3 a (by simp) r hr (by simpa using hbad))
      f acc
    simp only [collectAccounts, h1 a (by simp), h2 a (by simp), hcr]
    rw [ih (fun q hq => h1 q (by simp [hq])) (fun q hq => h2 q (by simp [hq]))
      (fun q hq => h3 q (by simp [hq])) herr]
    simp [List.append_assoc]

/-- C3: with region rk of account ak raising a ClientError on its first page
request and every other account/region pair reachable, get_cloudtrail_logs
returns exactly the events of the pairs other than (ak, rk), in iteration
order, continuing past the failed region to the remaining regions and
accounts. -/
theorem aws_region_error_isolation (env : AwsEnv) (accounts : List String)
    (regs : String → List String) (evs : String → String → List PyDict)
    (ak rk : String) (c : String) (fuel : Nat)
    (hrole : ∀ a ∈ accounts, env.assume_role a = .ok ())
    (hregs : ∀ a ∈ accounts, env.describe_regions a = .ok (regs a))
    (hok : ∀ a ∈ accounts, ∀ r ∈ regs a, ¬(a = ak ∧ r = rk) →
      env.lookup_events a r Option.none = .ok ⟨evs a r, Option.none⟩ ∧
      (evs a r).mapM normalizeEvent = .ok (evs a r))
    (herr : env.lookup_events ak rk Option.none = .error (.clientError c))
    (hfuel : 1 ≤ fuel) :
    get_cloudtrail_logs env fuel accounts =
      some (.ok ((accounts.map (fun a =>
        ((regs a).map (fun r =>
          if a = ak ∧ r = rk then [] else evs a r)).flatten)).flatten)) := by
  match fuel, hfuel with
  | f + 1, _ =>
    have h := collectAccounts_mixed env regs evs ak rk c f accounts hrole
      hregs hok herr []
    simpa [get_cloudtrail_logs] using h

/-- C3 witness: two accounts, two regions each; the second account's second
region raises; the result holds the three reachable pages in order. -/
theorem aws_region_error_isolation_witness :
    get_cloudtrail_logs c3Env 1 ["012345678901", "000000000001"] =
      some (.ok [pageEvent "012345678901/us-east-1",
        pageEvent "012345678901/eu-north-1",
        pageEvent "000000000001/us-east-1"]) := by
  have h := aws_region_error_isolation c3Env ["012345678901", "000000000001"]
    (fun _ => ["us-east-1", "eu-north-1"])
    (fun a r => [pageEvent (a ++ "/" ++ r)])
    "000000000001" "eu-north-1" "UnrecognizedClientException" 1
    (by intro a _; rfl) (by intro a _; rfl)
    (by
      intro a _ r _ hnot
      exact ⟨by simp [c3Env, hnot], rfl⟩)
    rfl (by norm_num)
  exact h.trans rfl

/-- lookupRegionEvents_errchain: when the pages ps are fetched and a
ClientError is raised on the following request, the loop ends without error,
keeping the events of the already-fetched pages. -/
theorem lookupRegionEvents_errchain (lookup : Option String → Except PyErr Page)
    (req : Option String) (ps : List Page)
    (hc : ErrPageChain lookup req ps) :
    ∀ fuel, ps.length + 1 ≤ fuel → ∀ (acc : List PyDict)
      (reqs : List (Option String)),
      ∃ tr, lookupRegionEvents lookup fuel req acc reqs =
        some (tr, .ok (acc ++ (ps.map Page.events).flatten)) := by
  induction hc with
  | err req c hlook =>
    intro fuel hfuel acc reqs
    match fuel, hfuel with
    | f + 1, _ =>
      refine ⟨reqs ++ [req], ?_⟩
      simp only [lookupRegionEvents, hlook, PyErr.isClientError]
      simp
  | cons req p t ps hlook hp htok hne hchain ih =>
    intro fuel hfuel acc reqs
    match fuel, hfuel with
    | f + 1, hfuel =>
      have hf2 : ps.length + 1 ≤ f := by
        simp only [List.length_cons] at hfuel
        omega
      obtain ⟨tr, htr⟩ := ih f hf2 (acc ++ p.events) (reqs ++ [req])
      refine ⟨tr, ?_⟩
      simp only [lookupRegionEvents, hlook, hp, htok]
      rw [if_neg hne]
      rw [htr]
      simp [List.append_assoc]

/-- C4 counterexample: in c4Env the single region's first page succeeds with
c4Event and its second page request raises a ClientError; the returned result
still contains c4Event, so the erroring region's partial results are not
dropped from the output as the claim states. -/
theorem aws_partial_drop_cex :
    get_cloudtrail_logs c4Env 2 ["111111111111"] = some (.ok [c4Event]) ∧
    get_cloudtrail_logs c4Env 2 ["111111111111"] ≠ some (.ok []) := by
  have h : get_cloudtrail_logs c4Env 2 ["111111111111"] =
      some (.ok [c4Event]) := rfl
  refine ⟨h, ?_⟩
  rw [h]
  simp [c4Event]

/-- C4 amended: an error partway through a region's pagination aborts that
region's loop and silently drops the remaining pages, but the events of the
pages already fetched from that region stay in the result, and iteration
continues to the next region. -/
theorem aws_partial_results_kept
    (lookup2 : String → Option String → Except PyErr Page) (r1 r2 : String)
    (ps : List Page) (evs2 : List PyDict) (fuel : Nat)
    (hc : ErrPageChain (lookup2 r1) Option.none ps)
    (h2 : lookup2 r2 Option.none = .ok ⟨evs2, Option.none⟩)
    (hn2 : evs2.mapM normalizeEvent = .ok evs2)
    (hfuel : ps.length + 1 ≤ fuel) :
    collectRegions lookup2 fuel [r1, r2] [] =
      some (.ok ((ps.map Page.events).flatten ++ evs2)) := by
  match fuel, hfuel with
  | f + 1, hfuel =>
    obtain ⟨tr, htr⟩ := lookupRegionEvents_errchain (lookup2 r1) Option.none
      ps hc (f + 1) hfuel [] []
    have hs := lookupRegionEvents_single (lookup2 r2) evs2 f
      ((ps.map Page.events).flatten) [] h2 hn2
    simp only [collectRegions, htr, List.nil_append, hs]

/-- C4 amended witness: region r1 yields one page then a ClientError, region
r2 yields one page; both the partial page and r2's page are returned. -/
theorem aws_partial_results_kept_witness :
    collectRegions c4Lookup2 2 ["r1", "r2"] [] =
      some (.ok [c4Event, pageEvent "r2event"]) := by
  have hc : ErrPageChain (c4Lookup2 "r1") Option.none
      [⟨[c4Event], some "T1"⟩] := by
    refine ErrPageChain.cons Option.none _ "T1" _ rfl rfl rfl (by decide) ?_
    exact ErrPageChain.err (some "T1") "ThrottlingException" rfl
  have h := aws_partial_results_kept c4Lookup2 "r1" "r2"
    [⟨[c4Event], some "T1"⟩] [pageEvent "r2event"] 2 hc rfl rfl (by norm_num)
  exact h.trans rfl

/-- C8: only botocore ClientError is caught per region; any other exception
raised while processing a page — here an error from normalizing the page's
events, such as a JSON decode error — propagates out of get_cloudtrail_logs,
aborting collection for all remaining regions and accounts. -/
theorem aws_non_clienterror_propagates (env : AwsEnv) (a : String)
    (rest : List String) (r : String) (rs : List String) (page : Page)
    (e : PyErr) (fuel : Nat)
    (hrole : env.assume_role a = .ok ())
    (hregs : env.describe_regions a = .ok (r :: rs))
    (hlook : env.lookup_events a r Option.none = .ok page)
    (hbad : page.events.mapM normalizeEvent = .error e)
    (hnc : e.isClientError = false)
    (hfuel : 1 ≤ fuel) :
    get_cloudtrail_logs env fuel (a :: rest) = some (.error e) := by
  match fuel, hfuel with
  | f + 1, _ =>
    simp only [get_cloudtrail_logs, collectAccounts, hrole, hregs,
      collectRegions, lookupRegionEvents, hlook, hbad, hnc]
    simp

/-- C8 witness: an event whose CloudTrailEvent string is not valid JSON makes
the whole collection fail with a JSON decode error, although a second region
and a second account with healthy pages remain unvisited. -/
theorem aws_non_clienterror_propagates_witness :
    get_cloudtrail_logs c8Env 1 ["111111111111", "222222222222"] =
      some (.error .jsonDecodeError) :=
  aws_non_clienterror_propagates c8Env "111111111111" ["222222222222"]
    "us-east-1" ["us-west-2"] ⟨[badJsonEvent], Option.none⟩ .jsonDecodeError 1
    rfl rfl rfl rfl rfl (by norm_num)

/-- C2 counterexample: the claimed idempotency fails on the code.  For the
event whose CloudTrailEvent field is the valid JSON string "\x7b\x7d", the
first normalization decodes the field into a structured value, but applying
the normalization a second time raises TypeError (json.loads of a dict),
instead of yielding a value equal to the first result. -/
theorem aws_normalization_idempotency_cex :
    normalizeEvent [("CloudTrailEvent", PyVal.str "\x7b\x7d")] =
      .ok [("CloudTrailEvent", PyVal.dict [])] ∧
    normalizeEvent [("CloudTrailEvent", PyVal.dict [])] =
      .error PyErr.typeError := ⟨rfl, rfl⟩

/-- C2 amended: one application of the AWS per-event normalization is total
on well-formed inputs: for any event whose CloudTrailEvent field holds a
valid JSON-encoded string (and whose EventTime, when present, is a datetime),
normalization succeeds, the detail field decodes to its structured value, and
a present datetime EventTime is replaced by a valid ISO-8601 string.  (The
original claim's idempotency is refuted by the counterexample: a second
application raises TypeError.) -/
theorem aws_normalization_total (event : PyDict) (s : String) (v : PyVal)
    (hct : List.lookup "CloudTrailEvent" event = some (.str s))
    (hs : json_loads_string s = some v)
    (het : ∀ w, List.lookup "EventTime" event = some w →
      ∃ dt, w = PyVal.datetime dt) :
    ∃ ev2, normalizeEvent event = .ok ev2 ∧
      List.lookup "CloudTrailEvent" ev2 = some v ∧
      ∀ dt, List.lookup "EventTime" event = some (.datetime dt) →
        List.lookup "EventTime" ev2 = some (.str dt.isoformat) ∧
        isValidISO8601 dt.isoformat = true := by
  have hload : pyJsonLoads (.str s) = .ok v := by
    simp [pyJsonLoads, hs]
  have hET : List.lookup "EventTime" (dictSet event "CloudTrailEvent" v) =
      List.lookup "EventTime" event :=
    lookup_dictSet_ne event "CloudTrailEvent" "EventTime" v (by decide)
  cases hw : List.lookup "EventTime" event with
  | none =>
    refine ⟨dictSet event "CloudTrailEvent" v, ?_, ?_, ?_⟩
    · simp only [normalizeEvent, hct, hload]
      rw [hET, hw]
    · exact lookup_dictSet_self event "CloudTrailEvent" v
    · intro dt hdt
      exact Option.noConfusion hdt
  | some w =>
    obtain ⟨dt, rfl⟩ := het w hw
    refine ⟨dictSet (dictSet event "CloudTrailEvent" v) "EventTime"
      (.str dt.isoformat), ?_, ?_, ?_⟩
    · simp only [normalizeEvent, hct, hload]
      rw [hET, hw]
      simp [pyIsoformat]
    · rw [lookup_dictSet_ne _ "EventTime" "CloudTrailEvent" _ (by decide)]
      exact lookup_dictSet_self event "CloudTrailEvent" v
    · intro dt2 hdt2
      have hv : PyVal.datetime dt = PyVal.datetime dt2 := Option.some.inj hdt2
      obtain rfl : dt = dt2 := by injection hv
      exact ⟨lookup_dictSet_self _ "EventTime" _, isoformat_validISO dt⟩

/-- C2 amended witness: a concrete event with a JSON detail string and a
datetime event time normalizes in one application. -/
theorem aws_normalization_total_witness :
    ∃ ev2, normalizeEvent c2Event = .ok ev2 ∧
      List.lookup "CloudTrailEvent" ev2 =
        some (.dict [("k", PyVal.int 1)]) ∧
      ∀ dt, List.lookup "EventTime" c2Event = some (.datetime dt) →
        List.lookup "EventTime" ev2 = some (.str dt.isoformat) ∧
        isValidISO8601 dt.isoformat = true :=
  aws_normalization_total c2Event "\x7b\"k\": 1\x7d"
    (.dict [("k", PyVal.int 1)]) rfl rfl
    (by
      intro w hw
      refine ⟨⟨2024, 5, 17, 12, 30, 45⟩, ?_⟩
      have hc : List.lookup "EventTime" c2Event =
          some (PyVal.datetime ⟨2024, 5, 17, 12, 30, 45⟩) := rfl
      rw [hc] at hw
      exact (Option.some.inj hw).symm)

end CloudLog
